import Mathlib

/-!
Verification of the primer-checkout integration layer.

The JavaScript source under src/ is shallowly embedded below.  Each section
names the source file and line range it is translated from.  JavaScript
numbers appearing as monetary amounts are modelled as integers, exceptions
as `Except` errors, absent (undefined) fields as `Option`, and the raw-byte
buffers of the webhook path as lists of naturals below 256.
-/

set_option maxRecDepth 4000

deriving instance DecidableEq for Except

/-! ## Retry-With-Backoff executor

Model of `retryWithBackoff` (src/server.js lines 116-128 and 637-649,
src/unnamed/part_000 lines 77-89; the three copies are textually identical).

```
async function retryWithBackoff(fn, maxRetries = 3, baseDelay = 1000) {
  for (let attempt = 0; attempt < maxRetries; attempt++) {
    try {
      return await fn();
    } catch (error) {
      if (attempt === maxRetries - 1) throw error;
      const delay = baseDelay * Math.pow(2, attempt);
      await new Promise(resolve => setTimeout(resolve, delay));
    }
  }
}
```

`fn` is modelled as a map from the (0-based) invocation index to that
invocation outcome.  The executor result records the final outcome
(`none` models falling out of the loop and returning `undefined`,
`some` models a returned value or a propagated failure), the number of
times `fn` was invoked, and the list of backoff delays awaited, in order;
`delays[i]` is the wait between invocation `i+1` and invocation `i+2`.
`maxRetries` is an `Int` so that non-positive attempt counts are
representable; the JS defaults are `maxRetries = 3`, `baseDelay = 1000`.
-/

structure RetryTrace (ε α : Type) where
  outcome : Option (Except ε α)
  invocations : Nat
  delays : List Nat
deriving DecidableEq, Repr

def retryAux (fn : Nat → Except ε α) (maxRetries : Int) (baseDelay : Nat)
    (attempt : Nat) : RetryTrace ε α :=
  if h : (attempt : Int) < maxRetries then
    match fn attempt with
    | .ok a => ⟨some (.ok a), 1, []⟩
    | .error e =>
      if (attempt : Int) = maxRetries - 1 then ⟨some (.error e), 1, []⟩
      else
        let rest := retryAux fn maxRetries baseDelay (attempt + 1)
        ⟨rest.outcome, rest.invocations + 1, baseDelay * 2 ^ attempt :: rest.delays⟩
  else ⟨none, 0, []⟩
termination_by (maxRetries - attempt).toNat
decreasing_by omega

def retryWithBackoff (fn : Nat → Except ε α) (maxRetries : Int) (baseDelay : Nat) :
    RetryTrace ε α :=
  retryAux fn maxRetries baseDelay 0

/-- `true` iff the outcome of one invocation is a success; used to compare the
success/failure pattern of two units of work while ignoring failure values. -/
def exceptIsOk : Except ε α → Bool
  | .ok _ => true
  | .error _ => false

theorem retryAux_stop (fn : Nat → Except ε α) (M : Int) (D : Nat) (s : Nat)
    (hs : ¬((s : Int) < M)) : retryAux fn M D s = ⟨none, 0, []⟩ := by
  unfold retryAux
  rw [dif_neg hs]

theorem retryAux_ok (fn : Nat → Except ε α) (M : Int) (D : Nat) (s : Nat) (a : α)
    (hs : (s : Int) < M) (hf : fn s = .ok a) :
    retryAux fn M D s = ⟨some (.ok a), 1, []⟩ := by
  unfold retryAux
  rw [dif_pos hs, hf]

theorem retryAux_err (fn : Nat → Except ε α) (M : Int) (D : Nat) (s : Nat) (e : ε)
    (hs : (s : Int) < M) (hf : fn s = .error e) :
    retryAux fn M D s =
      if (s : Int) = M - 1 then ⟨some (.error e), 1, []⟩
      else ⟨(retryAux fn M D (s + 1)).outcome, (retryAux fn M D (s + 1)).invocations + 1,
            D * 2 ^ s :: (retryAux fn M D (s + 1)).delays⟩ := by
  conv_lhs => rw [retryAux]
  rw [dif_pos hs, hf]

theorem range_pow_shift (D s K : Nat) :
    D * 2 ^ s :: ((List.range K).map fun j => D * 2 ^ (s + 1 + j)) =
      (List.range (K + 1)).map fun j => D * 2 ^ (s + j) := by
  rw [List.range_succ_eq_map]
  simp only [List.map_cons, Nat.add_zero, List.map_map]
  refine congrArg₂ _ rfl (List.map_congr_left fun j _ => ?_)
  simp only [Function.comp_apply]
  exact congrArg (fun t => D * 2 ^ t) (by omega)

theorem retryAux_succeeds (fn : Nat → Except ε α) (M : Int) (D : Nat) (s K : Nat) (a : α)
    (hfail : ∀ j, s ≤ j → j < s + K → ∃ e, fn j = Except.error e)
    (hok : fn (s + K) = Except.ok a)
    (hK : (s : Int) + K < M) :
    retryAux fn M D s =
      ⟨some (Except.ok a), K + 1, (List.range K).map fun j => D * 2 ^ (s + j)⟩ := by
  induction K generalizing s with
  | zero =>
    have hs : (s : Int) < M := by omega
    simp only [Nat.add_zero] at hok
    rw [retryAux_ok fn M D s a hs hok]
    rfl
  | succ K ih =>
    have hs : (s : Int) < M := by push_cast at hK; omega
    obtain ⟨e, he⟩ := hfail s le_rfl (by omega)
    have hne : ¬((s : Int) = M - 1) := by push_cast at hK; omega
    have hrec := ih (s + 1)
      (fun j h1 h2 => hfail j (by omega) (by omega))
      (by rw [show s + 1 + K = s + (K + 1) by omega]; exact hok)
      (by push_cast at hK ⊢; omega)
    rw [retryAux_err fn M D s e hs he, if_neg hne, hrec]
    simp only
    rw [range_pow_shift]

theorem retryAux_allFail (fn : Nat → Except ε α) (err : Nat → ε) (M D : Nat) (s : Nat)
    (herr : ∀ j, fn j = Except.error (err j)) (hs : s < M) :
    retryAux fn (M : Int) D s =
      ⟨some (Except.error (err (M - 1))), M - s,
        (List.range (M - 1 - s)).map fun j => D * 2 ^ (s + j)⟩ := by
  generalize hn : M - s = n
  induction n generalizing s with
  | zero => omega
  | succ n ih =>
    have hsM : (s : Int) < (M : Int) := by exact_mod_cast hs
    rw [retryAux_err fn (M : Int) D s (err s) hsM (herr s)]
    by_cases hlast : (s : Int) = (M : Int) - 1
    · have hsM1 : s = M - 1 := by omega
      have hn0 : n = 0 := by omega
      subst hn0
      have h2 : M - 1 - s = 0 := by omega
      rw [if_pos hlast, h2, ← hsM1]
      rfl
    · rw [if_neg hlast]
      have hrec := ih (s + 1) (by omega) (by omega)
      rw [hrec]
      have hrng : M - 1 - s = M - 1 - (s + 1) + 1 := by omega
      rw [hrng, ← range_pow_shift]

theorem retryAux_classBlind (fn fn' : Nat → Except ε α) (M : Int) (D : Nat)
    (h : ∀ j, exceptIsOk (fn j) = exceptIsOk (fn' j)) :
    ∀ (n : Nat) (s : Nat), (M - (s : Int)).toNat ≤ n →
      (retryAux fn M D s).invocations = (retryAux fn' M D s).invocations ∧
      (retryAux fn M D s).delays = (retryAux fn' M D s).delays := by
  intro n
  induction n with
  | zero =>
    intro s hs
    have hsM : ¬((s : Int) < M) := by omega
    rw [retryAux_stop fn M D s hsM, retryAux_stop fn' M D s hsM]
    exact ⟨rfl, rfl⟩
  | succ n ih =>
    intro s hs
    by_cases hsM : (s : Int) < M
    · have hpat := h s
      cases hf : fn s with
      | ok a =>
        cases hf' : fn' s with
        | ok a' =>
          rw [retryAux_ok fn M D s a hsM hf, retryAux_ok fn' M D s a' hsM hf']
          exact ⟨rfl, rfl⟩
        | error e' => rw [hf, hf'] at hpat; simp [exceptIsOk] at hpat
      | error e =>
        cases hf' : fn' s with
        | ok a' => rw [hf, hf'] at hpat; simp [exceptIsOk] at hpat
        | error e' =>
          rw [retryAux_err fn M D s e hsM hf, retryAux_err fn' M D s e' hsM hf']
          by_cases hlast : (s : Int) = M - 1
          · rw [if_pos hlast, if_pos hlast]
            exact ⟨rfl, rfl⟩
          · rw [if_neg hlast, if_neg hlast]
            have hrec := ih (s + 1) (by omega)
            exact ⟨by simp only [hrec.1], by simp only [hrec.2]⟩
    · rw [retryAux_stop fn M D s hsM, retryAux_stop fn' M D s hsM]
      exact ⟨rfl, rfl⟩

/-- Claim C1: for a unit of work failing exactly `K` times before succeeding,
with attempt limit `M ≥ K + 1`, the executor returns the success result after
exactly `K + 1` invocations; for a unit of work that always fails and `M ≥ 1`
it makes exactly `M` invocations and propagates the `M`-th failure; the delay
preceding the 1-indexed attempt `i ≥ 2` (entry `i - 2` of the delay list) is
`D * 2 ^ (i - 2)`; and the invocation count and delays depend only on the
success/failure pattern of the work, never on the class of the failures. -/
theorem retryWithBackoff_C1 (ε α : Type) :
    (∀ (fn : Nat → Except ε α) (M K D : Nat) (a : α),
      (∀ j, j < K → ∃ e, fn j = Except.error e) → fn K = Except.ok a → K + 1 ≤ M →
      retryWithBackoff fn (M : Int) D =
        ⟨some (Except.ok a), K + 1, (List.range K).map fun j => D * 2 ^ j⟩) ∧
    (∀ (fn : Nat → Except ε α) (err : Nat → ε) (M D : Nat),
      1 ≤ M → (∀ j, fn j = Except.error (err j)) →
      retryWithBackoff fn (M : Int) D =
        ⟨some (Except.error (err (M - 1))), M, (List.range (M - 1)).map fun j => D * 2 ^ j⟩) ∧
    (∀ (fn fn' : Nat → Except ε α) (M : Int) (D : Nat),
      (∀ j, exceptIsOk (fn j) = exceptIsOk (fn' j)) →
      (retryWithBackoff fn M D).invocations = (retryWithBackoff fn' M D).invocations ∧
      (retryWithBackoff fn M D).delays = (retryWithBackoff fn' M D).delays) := by
  refine ⟨?_, ?_, ?_⟩
  · intro fn M K D a hfail hok hKM
    have h := retryAux_succeeds fn (M : Int) D 0 K a
      (fun j _ hj => hfail j (by omega)) (by simpa using hok) (by push_cast; omega)
    rw [retryWithBackoff, h]
    simp only [Nat.zero_add]
  · intro fn err M D hM herr
    have h := retryAux_allFail fn err M D 0 herr (by omega)
    rw [retryWithBackoff, h]
    simp only [Nat.sub_zero, Nat.zero_add]
  · intro fn fn' M D h
    exact retryAux_classBlind fn fn' M D h ((M - 0).toNat) 0 le_rfl

theorem retryWithBackoff_C1_witness :
    retryWithBackoff (fun j => if j < 2 then Except.error j else Except.ok 7) ((3 : Nat) : Int) 1000 =
      ⟨some (Except.ok 7), 3, (List.range 2).map fun j => 1000 * 2 ^ j⟩ :=
  (retryWithBackoff_C1 Nat Nat).1 _ 3 2 1000 7
    (fun j hj => ⟨j, by simp [hj]⟩) (by simp) (by omega)

/-- Claim C10: with a non-positive attempt limit the loop body never runs:
the unit of work is never invoked, no delay is awaited, no failure is raised,
and the executor returns `undefined` (outcome `none`). -/
theorem retryWithBackoff_C10 (ε α : Type) (fn : Nat → Except ε α) (M : Int) (D : Nat)
    (h : M ≤ 0) :
    retryWithBackoff fn M D = ⟨none, 0, []⟩ := by
  rw [retryWithBackoff, retryAux_stop fn M D 0 (by omega)]

theorem retryWithBackoff_C10_witness :
    retryWithBackoff (fun _ => Except.ok 0) (-2 : Int) 1000 = (⟨none, 0, []⟩ : RetryTrace Unit Nat) :=
  retryWithBackoff_C10 Unit Nat _ (-2) 1000 (by norm_num)

/-! ## Webhook signature verifier

Model of `verifyWebhookSignature` (src/server.js lines 130-145 and 651-666,
src/unnamed/part_000 lines 60-75; the copies are textually identical).

```
function verifyWebhookSignature(payload, signature) {
  if (!WEBHOOK_SECRET) {
    console.warn('Webhook secret not configured - skipping signature verification');
    return true;
  }
  const expectedSignature = crypto
    .createHmac('sha256', WEBHOOK_SECRET)
    .update(payload)
    .digest('hex');
  return crypto.timingSafeEqual(
    Buffer.from(signature, 'hex'),
    Buffer.from(expectedSignature, 'hex')
  );
}
```

The HMAC-SHA256 primitive is an external library call; it is modelled as an
uninterpreted function `hmacHex : String → String → String` mapping secret
and payload to the lowercase hex digest that `digest('hex')` returns (the
theorems that need it hypothesise that this digest is the hex encoding of a
32-byte value, which is a property of the library, not of this code).
`secret = ""` models an unset or empty `PRIMER_WEBHOOK_SECRET` (both are
falsy in JS).  `signature = none` models a missing `x-primer-signature`
header: `Buffer.from(undefined, 'hex')` raises a `TypeError`.  Node hex
decoding (`Buffer.from(s, 'hex')`) is lenient: it decodes complete two-digit
pairs from the left and stops at the first invalid pair or lone trailing
digit.  `crypto.timingSafeEqual` raises a `RangeError` when the two buffers
differ in byte length, and otherwise returns the boolean equality of the
buffers (its constant-time evaluation is a timing property outside this
model).
-/

inductive NodeFault
  | typeFault   -- TypeError, e.g. Buffer.from(undefined, 'hex')
  | rangeFault  -- RangeError from crypto.timingSafeEqual on a length mismatch
  | jsonFault   -- SyntaxError from JSON.parse
deriving DecidableEq, Repr

def hexDigitVal (c : Char) : Option Nat :=
  if '0' ≤ c ∧ c ≤ '9' then some (c.toNat - '0'.toNat)
  else if 'a' ≤ c ∧ c ≤ 'f' then some (c.toNat - 'a'.toNat + 10)
  else if 'A' ≤ c ∧ c ≤ 'F' then some (c.toNat - 'A'.toNat + 10)
  else none

def hexDecodeList : List Char → List Nat
  | c1 :: c2 :: rest =>
    match hexDigitVal c1, hexDigitVal c2 with
    | some hi, some lo => (16 * hi + lo) :: hexDecodeList rest
    | _, _ => []
  | _ => []

/-- `Buffer.from(s, 'hex')` under Node lenient hex decoding. -/
def bufferFromHex (s : String) : List Nat := hexDecodeList s.data

def toHexDigit (n : Nat) : Char :=
  if n < 10 then Char.ofNat ('0'.toNat + n) else Char.ofNat ('a'.toNat + (n - 10))

def hexEncodeList : List Nat → List Char
  | [] => []
  | b :: rest => toHexDigit (b / 16) :: toHexDigit (b % 16) :: hexEncodeList rest

/-- Lowercase hex encoding of a byte list, as produced by `digest('hex')`. -/
def hexEncode (l : List Nat) : String := ⟨hexEncodeList l⟩

def timingSafeEqual (a b : List Nat) : Except NodeFault Bool :=
  if a.length = b.length then .ok (decide (a = b)) else .error .rangeFault

def verifyWebhookSignature (hmacHex : String → String → String) (secret : String)
    (payload : String) (signature : Option String) : Except NodeFault Bool :=
  if secret = "" then .ok true
  else
    match signature with
    | none => .error .typeFault
    | some sig =>
      timingSafeEqual (bufferFromHex sig) (bufferFromHex (hmacHex secret payload))

/-- Flip bit `k` of byte `j` of a byte list (the single-bit tampering used to
state Claim C2). -/
def flipBit (bytes : List Nat) (j k : Nat) : List Nat :=
  bytes.set j (bytes.getD j 0 ^^^ 2 ^ k)

theorem hexDigitVal_toHexDigit : ∀ n, n < 16 → hexDigitVal (toHexDigit n) = some n := by
  decide

theorem hexDecodeList_encode (l : List Nat) (h : ∀ b ∈ l, b < 256) :
    hexDecodeList (hexEncodeList l) = l := by
  induction l with
  | nil => rfl
  | cons b rest ih =>
    have hb : b < 256 := h b (List.mem_cons_self b rest)
    have h1 : b / 16 < 16 := by omega
    have h2 : b % 16 < 16 := by omega
    rw [hexEncodeList, hexDecodeList, hexDigitVal_toHexDigit _ h1, hexDigitVal_toHexDigit _ h2]
    simp only
    rw [ih fun x hx => h x (List.mem_cons_of_mem b hx)]
    congr 1
    omega

theorem bufferFromHex_hexEncode (l : List Nat) (h : ∀ b ∈ l, b < 256) :
    bufferFromHex (hexEncode l) = l :=
  hexDecodeList_encode l h

theorem flipBit_bytes_lt (digest : List Nat) (j k : Nat) (hk : k < 8)
    (h : ∀ b ∈ digest, b < 256) : ∀ b ∈ flipBit digest j k, b < 256 := by
  intro b hb
  rcases List.mem_or_eq_of_mem_set hb with hmem | heq
  · exact h b hmem
  · subst heq
    have h1 : digest.getD j 0 < 256 := by
      rcases Nat.lt_or_ge j digest.length with hj | hj
      · have hm := h _ (List.getElem_mem hj)
        rw [List.getD_eq_getElem?_getD, List.getElem?_eq_getElem hj, Option.getD_some]
        exact hm
      · rw [List.getD_eq_getElem?_getD, List.getElem?_eq_none hj, Option.getD_none]
        omega
    have h2 : (2 : Nat) ^ k < 2 ^ 8 := Nat.pow_lt_pow_right (by omega) hk
    calc digest.getD j 0 ^^^ 2 ^ k < 2 ^ 8 :=
          Nat.xor_lt_two_pow (by simpa using h1) (by simpa using h2)
      _ = 256 := by norm_num

theorem flipBit_ne (digest : List Nat) (j k : Nat) (hj : j < digest.length) :
    flipBit digest j k ≠ digest := by
  intro heq
  have hset : (flipBit digest j k)[j]? = some (digest.getD j 0 ^^^ 2 ^ k) := by
    unfold flipBit
    exact List.getElem?_set_self hj
  rw [heq, List.getElem?_eq_getElem hj] at hset
  have hgd : digest.getD j 0 = digest[j] := by
    rw [List.getD_eq_getElem?_getD, List.getElem?_eq_getElem hj, Option.getD_some]
  have hx : digest[j] = digest[j] ^^^ 2 ^ k := by
    have := Option.some.inj hset
    rw [hgd] at this
    exact this
  have h0 : digest[j] ^^^ digest[j] = digest[j] ^^^ (digest[j] ^^^ 2 ^ k) :=
    congrArg (fun t => digest[j] ^^^ t) hx
  rw [Nat.xor_self, ← Nat.xor_assoc, Nat.xor_self, Nat.zero_xor] at h0
  have hpos : 0 < (2 : Nat) ^ k := Nat.two_pow_pos k
  omega

/-- Claim C2: with a configured secret, the verifier accepts the exact
hex-encoded HMAC-SHA256 digest of the payload, and returns `false` for the
hex encoding of the same 32-byte digest with any single bit flipped; with no
secret configured it accepts every payload/signature pair (fail-open). -/
theorem verifyWebhookSignature_C2 (hmacHex : String → String → String)
    (secret payload : String) (digest : List Nat) (j k : Nat)
    (hsecret : secret ≠ "")
    (hdig : hmacHex secret payload = hexEncode digest)
    (hlen : digest.length = 32)
    (hbytes : ∀ b ∈ digest, b < 256)
    (hj : j < 32) (hk : k < 8) :
    verifyWebhookSignature hmacHex secret payload (some (hmacHex secret payload)) =
      .ok true ∧
    verifyWebhookSignature hmacHex secret payload (some (hexEncode (flipBit digest j k))) =
      .ok false ∧
    (∀ (h : String → String → String) (p : String) (s : Option String),
      verifyWebhookSignature h "" p s = .ok true) := by
  refine ⟨?_, ?_, ?_⟩
  · have heq : timingSafeEqual (bufferFromHex (hmacHex secret payload))
        (bufferFromHex (hmacHex secret payload)) = .ok true := by
      rw [timingSafeEqual, if_pos rfl]
      simp
    simpa [verifyWebhookSignature, hsecret] using heq
  · have hflip := bufferFromHex_hexEncode (flipBit digest j k) (flipBit_bytes_lt digest j k hk hbytes)
    have horig : bufferFromHex (hmacHex secret payload) = digest := by
      rw [hdig]; exact bufferFromHex_hexEncode digest hbytes
    have hlenflip : (flipBit digest j k).length = digest.length := List.length_set digest j _
    have hne : flipBit digest j k ≠ digest := flipBit_ne digest j k (by omega)
    have heq : timingSafeEqual (bufferFromHex (hexEncode (flipBit digest j k)))
        (bufferFromHex (hmacHex secret payload)) = .ok false := by
      rw [timingSafeEqual, hflip, horig, if_pos hlenflip]
      simp [hne]
    simpa [verifyWebhookSignature, hsecret] using heq
  · intro h p s
    simp [verifyWebhookSignature]

theorem verifyWebhookSignature_C2_witness :
    verifyWebhookSignature (fun _ _ => hexEncode (List.replicate 32 0)) "whsec" "payload"
        (some ((fun _ _ => hexEncode (List.replicate 32 0)) "whsec" "payload")) = .ok true ∧
    verifyWebhookSignature (fun _ _ => hexEncode (List.replicate 32 0)) "whsec" "payload"
        (some (hexEncode (flipBit (List.replicate 32 0) 0 0))) = .ok false ∧
    (∀ (h : String → String → String) (p : String) (s : Option String),
      verifyWebhookSignature h "" p s = .ok true) :=
  verifyWebhookSignature_C2 (fun _ _ => hexEncode (List.replicate 32 0)) "whsec" "payload"
    (List.replicate 32 0) 0 0 (by decide) rfl (by decide) (by decide) (by decide) (by decide)

/-- Claim C3 counterexample: with a configured secret and a missing
`x-primer-signature` header, `verifyWebhookSignature` does not return `false`:
`Buffer.from(undefined, 'hex')` raises a TypeError that escapes the function
(the webhook route catch then answers 500, not the 401 rejection path). -/
theorem verifyWebhookSignature_C3_counterexample :
    ("whsec" : String) ≠ "" ∧
    verifyWebhookSignature (fun _ _ => hexEncode (List.replicate 32 0)) "whsec" "payload" none =
      .error .typeFault := by
  constructor
  · decide
  · simp only [verifyWebhookSignature]
    rw [if_neg (by decide)]

/-- Claim C3 amended: with a configured secret, a missing signature header
raises a TypeError-modelled fault, and a signature string whose lenient hex
decoding is not exactly 32 bytes (wrong length or invalid hex characters)
raises a RangeError-modelled fault from `crypto.timingSafeEqual`; in neither
case does the function return `false` — the fault propagates to the caller,
where the webhook route catch maps it to a 500 response instead of the 401
rejection path. -/
theorem verifyWebhookSignature_C3_amended (hmacHex : String → String → String)
    (secret payload sig : String) (digest : List Nat)
    (hsecret : secret ≠ "")
    (hdig : hmacHex secret payload = hexEncode digest)
    (hlen : digest.length = 32)
    (hbytes : ∀ b ∈ digest, b < 256)
    (hsig : (bufferFromHex sig).length ≠ 32) :
    verifyWebhookSignature hmacHex secret payload none = .error .typeFault ∧
    verifyWebhookSignature hmacHex secret payload (some sig) = .error .rangeFault := by
  constructor
  · simp only [verifyWebhookSignature]
    rw [if_neg hsecret]
  · have horig : bufferFromHex (hmacHex secret payload) = digest := by
      rw [hdig]; exact bufferFromHex_hexEncode digest hbytes
    have heq : timingSafeEqual (bufferFromHex sig) (bufferFromHex (hmacHex secret payload)) =
        .error .rangeFault := by
      rw [timingSafeEqual, horig, if_neg (by omega)]
    simpa [verifyWebhookSignature, hsecret] using heq

theorem verifyWebhookSignature_C3_amended_witness :
    verifyWebhookSignature (fun _ _ => hexEncode (List.replicate 32 0)) "whsec" "payload" none =
      .error .typeFault ∧
    verifyWebhookSignature (fun _ _ => hexEncode (List.replicate 32 0)) "whsec" "payload"
      (some "zz") = .error .rangeFault :=
  verifyWebhookSignature_C3_amended (fun _ _ => hexEncode (List.replicate 32 0))
    "whsec" "payload" "zz" (List.replicate 32 0) (by decide) rfl (by decide) (by decide) (by decide)

/-! ## Webhook route

Model of the `POST /webhook` handler (src/server.js lines 283-351 and
1075-1143) together with the five event handlers (src/server.js lines
355-433; src/api/webhook.js lines 10-88 is the same logic).  The route:

1. if `VERIFY_WEBHOOKS !== 'false'`, calls `verifyWebhookSignature` and
   answers 401 on a `false` result (a fault thrown by the verifier falls
   to the catch block);
2. parses the raw body with `JSON.parse` (a parse failure raises a
   SyntaxError); the parse outcome is an input of the model, the payload
   string itself is only used for the signature;
3. switches on `event.eventType` into one of five named handlers, each of
   which reads properties such as `payment.id` off `data?.payment` — when
   `data.payment` is absent that property access raises a TypeError;
4. on reaching the end, answers 200 with
   `{received: true, eventType, paymentId: payment?.id, timestamp}`
   (the timestamp is wall-clock output and is not modelled);
5. the catch block answers 400 when the caught fault is a SyntaxError and
   500 otherwise.
-/

structure PaymentObj where
  id : Option String
deriving DecidableEq, Repr

structure WebhookEvent where
  eventType : Option String
  payment : Option PaymentObj   -- event.data?.payment
deriving DecidableEq, Repr

/-- `handlePaymentCreated` logs `payment.id`, `payment.orderId`, ...; with an
absent payment object the property access raises a TypeError. -/
def handlePaymentCreated : Option PaymentObj → Except NodeFault Unit
  | none => .error .typeFault
  | some _ => .ok ()

def handlePaymentAuthorized : Option PaymentObj → Except NodeFault Unit
  | none => .error .typeFault
  | some _ => .ok ()

def handlePaymentCaptured : Option PaymentObj → Except NodeFault Unit
  | none => .error .typeFault
  | some _ => .ok ()

def handlePaymentFailed : Option PaymentObj → Except NodeFault Unit
  | none => .error .typeFault
  | some _ => .ok ()

def handlePaymentCancelled : Option PaymentObj → Except NodeFault Unit
  | none => .error .typeFault
  | some _ => .ok ()

/-- The `switch (eventType)` dispatch; the `default` arm only logs and cannot
fault. -/
def dispatchWebhookEvent (eventType : Option String) (payment : Option PaymentObj) :
    Except NodeFault Unit :=
  match eventType with
  | some "PAYMENT_CREATED" => handlePaymentCreated payment
  | some "PAYMENT_AUTHORIZED" => handlePaymentAuthorized payment
  | some "PAYMENT_CAPTURED" => handlePaymentCaptured payment
  | some "PAYMENT_FAILED" => handlePaymentFailed payment
  | some "PAYMENT_CANCELLED" => handlePaymentCancelled payment
  | _ => .ok ()

inductive WebhookResponse
  | ack (eventType : Option String) (paymentId : Option String)  -- 200 received:true
  | unauthorized                                                 -- 401 invalid signature
  | failed (status : Nat)                                        -- catch: 400 or 500
deriving DecidableEq, Repr

def webhookProcess (parsed : Except NodeFault WebhookEvent) :
    Except NodeFault WebhookResponse :=
  match parsed with
  | .error _ => .error .jsonFault
  | .ok event =>
    match dispatchWebhookEvent event.eventType event.payment with
    | .error f => .error f
    | .ok _ => .ok (.ack event.eventType (event.payment.bind PaymentObj.id))

def webhookRoute (hmacHex : String → String → String) (secret : String)
    (verifyWebhooks : Bool) (payload : String) (signature : Option String)
    (parsed : Except NodeFault WebhookEvent) : WebhookResponse :=
  let result : Except NodeFault WebhookResponse :=
    if verifyWebhooks then
      match verifyWebhookSignature hmacHex secret payload signature with
      | .error f => .error f
      | .ok true => webhookProcess parsed
      | .ok false => .ok .unauthorized
    else webhookProcess parsed
  match result with
  | .ok r => r
  | .error .jsonFault => .failed 400
  | .error _ => .failed 500

/-- Claim C4 counterexample: a webhook request that passes the signature
check (configured secret, correct signature) and whose body parses as the
JSON object with eventType PAYMENT_CREATED and no data.payment is answered
500 (handler TypeError reaches the catch block), not 200. -/
theorem webhookRoute_C4_counterexample :
    webhookRoute (fun _ _ => hexEncode (List.replicate 32 0)) "whsec" true "rawbody"
      (some (hexEncode (List.replicate 32 0)))
      (Except.ok ⟨some "PAYMENT_CREATED", none⟩) = WebhookResponse.failed 500 := by
  decide

theorem dispatchWebhookEvent_fault (eventType : Option String) (payment : Option PaymentObj)
    (f : NodeFault) (h : dispatchWebhookEvent eventType payment = .error f) :
    f = .typeFault := by
  unfold dispatchWebhookEvent at h
  split at h <;>
    first
    | (cases payment <;> simp_all [handlePaymentCreated, handlePaymentAuthorized,
        handlePaymentCaptured, handlePaymentFailed, handlePaymentCancelled])
    | simp_all

/-- Claim C4 amended: once the signature check passes (or verification is
disabled) and the body parses, the route answers 200 with
`{received: true, eventType, paymentId}` echoed whenever the dispatched
event handler raises no fault (in particular for every unrecognized
eventType, and for every recognized eventType whose data.payment is
present); but when the handler raises a fault — a recognized eventType with
absent data.payment — the route catch surfaces it as a 500 response, not as
a 200 acknowledgement. -/
theorem webhookRoute_C4_amended (hmacHex : String → String → String)
    (secret payload : String) (sig : Option String) (verifyWebhooks : Bool)
    (event : WebhookEvent)
    (hsig : verifyWebhooks = false ∨
      verifyWebhookSignature hmacHex secret payload sig = Except.ok true) :
    (dispatchWebhookEvent event.eventType event.payment = Except.ok () →
      webhookRoute hmacHex secret verifyWebhooks payload sig (Except.ok event) =
        WebhookResponse.ack event.eventType (event.payment.bind PaymentObj.id)) ∧
    (∀ f, dispatchWebhookEvent event.eventType event.payment = Except.error f →
      webhookRoute hmacHex secret verifyWebhooks payload sig (Except.ok event) =
        WebhookResponse.failed 500) := by
  have hproc_ok : dispatchWebhookEvent event.eventType event.payment = Except.ok () →
      webhookProcess (Except.ok event) =
        Except.ok (WebhookResponse.ack event.eventType (event.payment.bind PaymentObj.id)) := by
    intro hd
    rw [webhookProcess, hd]
  have hproc_err : ∀ f, dispatchWebhookEvent event.eventType event.payment = Except.error f →
      webhookProcess (Except.ok event) = Except.error f := by
    intro f hd
    rw [webhookProcess, hd]
  constructor
  · intro hd
    rcases hsig with hv | hv
    · rw [webhookRoute, hv]
      simp only [if_false, Bool.false_eq_true]
      rw [hproc_ok hd]
    · rw [webhookRoute]
      cases verifyWebhooks with
      | false => simp only [if_false, Bool.false_eq_true]; rw [hproc_ok hd]
      | true => simp only [if_true]; rw [hv, hproc_ok hd]
  · intro f hd
    have hf : f = .typeFault := dispatchWebhookEvent_fault _ _ f hd
    subst hf
    rcases hsig with hv | hv
    · rw [webhookRoute, hv]
      simp only [if_false, Bool.false_eq_true]
      rw [hproc_err _ hd]
    · rw [webhookRoute]
      cases verifyWebhooks with
      | false => simp only [if_false, Bool.false_eq_true]; rw [hproc_err _ hd]
      | true => simp only [if_true]; rw [hv, hproc_err _ hd]

theorem webhookRoute_C4_amended_witness :
    webhookRoute (fun _ _ => "") "whsec" false "rawbody" none
      (Except.ok ⟨some "SOME_FUTURE_EVENT", none⟩) =
      WebhookResponse.ack (some "SOME_FUTURE_EVENT") none :=
  (webhookRoute_C4_amended (fun _ _ => "") "whsec" "rawbody" none false
    ⟨some "SOME_FUTURE_EVENT", none⟩ (Or.inl rfl)).1 (by decide)

/-! ## Request normalizer

Model of the `POST /create-client-session` request-shape handling
(src/server.js lines 508-571 for the Joi schema and lines 887-1015 for the
two normalization branches; src/api/create-client-session.js lines 32-153
is the serverless variant of the same logic and src/unnamed/part_000 lines
126-186 its schema).  Monetary amounts are integers here; Joi defaults
(`currency := "GBP"`, `countryCode := "GB"`, the three Apple Pay booleans
`:= false`) are applied by validation, so the post-validation value carries
them as plain fields.  Joi object fields whose content the code never
inspects (`metadata`, the three Apple Pay request sub-objects) are modelled
by their serialized form as strings.  `firstPaymentReason` has no top-level
schema entry; the schema ends in `.unknown()`, so a caller-supplied value
survives validation and the server.js internal branch reads it.
-/

structure LineItemIn where
  id : String
  name : String
  amount : Int
  quantity : Int
deriving DecidableEq, Repr

structure LineItemOut where
  itemId : String
  description : String
  amount : Int
  quantity : Int
deriving DecidableEq, Repr

structure OrderIn where
  countryCode : Option String
  lineItems : Option (List LineItemOut)
deriving DecidableEq, Repr

structure CustomerIn where
  emailAddress : Option String
deriving DecidableEq, Repr

structure ApplePayRequestIn where
  merchantName : Option String
  recurringPaymentRequest : Option String
  deferredPaymentRequest : Option String
  automaticReloadRequest : Option String
deriving DecidableEq, Repr

structure PaymentMethodOptionsIn where
  APPLE_PAY : Option ApplePayRequestIn
deriving DecidableEq, Repr

structure PaymentMethodIn where
  vaultOnSuccess : Option Bool
  firstPaymentReason : Option String
  options : Option PaymentMethodOptionsIn
deriving DecidableEq, Repr

/-- The post-validation `value` returned by `createSessionSchema.validate`. -/
structure SessionValue where
  userId : Option String
  cartId : Option String
  amount : Option Int
  currency : String
  customerEmail : Option String
  customerId : Option String
  orderId : Option String
  currencyCode : Option String
  countryCode : String
  applePayMerchantName : Option String
  applePayRecurring : Bool
  applePayDeferred : Bool
  applePayAutoReload : Bool
  items : Option (List LineItemIn)
  order : Option OrderIn
  customer : Option CustomerIn
  paymentMethod : Option PaymentMethodIn
  paymentType : Option String
  metadata : Option String
  firstPaymentReason : Option String
deriving DecidableEq, Repr

def validItem (it : LineItemIn) : Bool :=
  it.id != "" && it.name != "" && decide (0 < it.amount) && decide (0 < it.quantity)

def validLineItemOut (it : LineItemOut) : Bool :=
  it.itemId != "" && it.description != "" && decide (0 < it.amount) && decide (0 < it.quantity)

def currencyAllowList : List String := ["GBP", "USD", "EUR", "JPY"]

/-- The Joi constraints of `createSessionSchema` that bear on the claims
below: amount positive and at most 9999999, currency codes in the fixed
allow-list, non-empty bounded `orderId`, item fields present with positive
amount and quantity, two-letter country codes, and the two enumerations.
An empty `items` array is accepted — `Joi.array().items(...)` imposes no
minimum length. -/
def validSessionValue (v : SessionValue) : Bool :=
  (match v.amount with
   | none => true
   | some a => decide (0 < a) && decide (a ≤ 9999999)) &&
  currencyAllowList.contains v.currency &&
  (match v.currencyCode with
   | none => true
   | some c => currencyAllowList.contains c) &&
  (match v.orderId with
   | none => true
   | some o => o != "" && decide (o.length ≤ 256)) &&
  (match v.items with
   | none => true
   | some l => l.all validItem) &&
  (match v.order with
   | none => true
   | some o =>
     (match o.lineItems with
      | none => true
      | some l => l.all validLineItemOut) &&
     (match o.countryCode with
      | none => true
      | some c => decide (c.length = 2))) &&
  decide (v.countryCode.length = 2) &&
  v.paymentType.all (fun t => ["FIRST_PAYMENT", "ECOMMERCE", "SUBSCRIPTION", "UNSCHEDULED"].contains t) &&
  v.firstPaymentReason.all (fun t => ["CardOnFile", "Recurring", "Unscheduled"].contains t)

/-- `value.orderId || value.currencyCode || value.order` — the branch test for
the direct (processor-native) format.  Joi bounds exclude the empty string,
so JS falsiness coincides with absence. -/
def isDirectFormat (v : SessionValue) : Bool :=
  v.orderId.isSome || v.currencyCode.isSome || v.order.isSome

structure ApplePaySummaryItem where
  label : String
  amount : Int
  type : String
deriving DecidableEq, Repr

structure ApplePayOptions where
  merchantDisplayName : Option String
  merchantCapabilities : Option (List String)
  paymentSummaryItems : Option (List ApplePaySummaryItem)
deriving DecidableEq, Repr

/-- The `APPLE_PAY` options object built by the internal branch
(src/server.js lines 977-1009, src/api/create-client-session.js lines
118-150): four conditional object spreads applied in order — merchant name,
recurring, deferred, auto-reload — where a later spread overwrites the
`merchantCapabilities` and `paymentSummaryItems` keys of an earlier one. -/
def applePayOptions (merchantName : Option String) (recurring deferred autoReload : Bool)
    (amount : Int) : ApplePayOptions :=
  let o : ApplePayOptions := ⟨none, none, none⟩
  let o := match merchantName with
    | some n => { o with merchantDisplayName := some n }
    | none => o
  let o := if recurring then
      { o with
        merchantCapabilities := some ["supports3DS", "supportsEMV", "supportsCredit", "supportsDebit"],
        paymentSummaryItems := some [⟨"Recurring Payment Setup", amount, "final"⟩] }
    else o
  let o := if deferred then
      { o with
        merchantCapabilities := some ["supports3DS", "supportsEMV", "supportsCredit"],
        paymentSummaryItems := some [⟨"Buy Now, Pay Later", amount, "pending"⟩] }
    else o
  let o := if autoReload then
      { o with
        merchantCapabilities := some ["supports3DS", "supportsEMV", "supportsCredit", "supportsDebit"],
        paymentSummaryItems := some [⟨"Auto-reload Setup", amount, "final"⟩] }
    else o
  o

/-- `items ? items.map(...) : [default]` — an absent items field yields one
synthesized line item carrying the full amount; a present (possibly empty)
array is mapped element-wise. -/
def internalLineItems (items : Option (List LineItemIn)) (amount : Int) : List LineItemOut :=
  match items with
  | some l => l.map fun it => ⟨it.id, it.name, it.amount, it.quantity⟩
  | none => [⟨"hoodie-sku-1", "Premium Primer Hoodie", amount, 1⟩]

structure CustomerOut where
  emailAddress : String
deriving DecidableEq, Repr

structure InternalOrderOut where
  lineItems : List LineItemOut
  countryCode : String
deriving DecidableEq, Repr

/-- The internal-branch `paymentMethod` object; the `options` wrapper holds
exactly one key, `APPLE_PAY`, flattened here. -/
structure InternalPaymentMethodOut where
  vaultOnSuccess : Bool
  firstPaymentReason : Option String
  APPLE_PAY : ApplePayOptions
deriving DecidableEq, Repr

structure InternalOrderPayload where
  orderId : String
  currencyCode : String
  amount : Int
  customerId : Option String
  customer : CustomerOut
  order : InternalOrderOut
  paymentMethod : InternalPaymentMethodOut
  paymentType : Option String
deriving DecidableEq, Repr

/-- The internal-format branch of src/server.js lines 934-1014.
`genOrderId` stands for the `generateOrderId()` draw (timestamp plus random
hex, produced outside this pure model). -/
def internalOrderData (v : SessionValue) (genOrderId : String) : InternalOrderPayload :=
  let amount := v.amount.getD 4999
  { orderId := genOrderId
    currencyCode := v.currency
    amount := amount
    customerId := v.customerId
    customer := ⟨v.customerEmail.getD "demo@example.com"⟩
    order := ⟨internalLineItems v.items amount, v.countryCode⟩
    paymentMethod :=
      ⟨v.customerId.isSome, v.firstPaymentReason,
        applePayOptions v.applePayMerchantName v.applePayRecurring v.applePayDeferred
          v.applePayAutoReload amount⟩
    paymentType := v.paymentType }

structure DirectOrderPayload where
  orderId : String
  currencyCode : String
  amount : Int
  customerId : Option String
  customer : CustomerIn
  order : OrderIn
  paymentMethod : Option PaymentMethodIn
  paymentType : Option String
  metadata : Option String
deriving DecidableEq, Repr

/-- The direct Primer-API-format branch of src/server.js lines 891-932:
pass `orderId`/`currencyCode`/`amount` with fallbacks, spread through
`customerId`, `customer`, `order`, `paymentMethod`, `paymentType` and
`metadata` when present, and synthesize `customer` and `order` when absent.
(`value.currency` always carries the Joi default, so the final `|| 'GBP'`
fallback of the source is unreachable and does not appear.) -/
def directOrderDataServer (v : SessionValue) (genOrderId : String) : DirectOrderPayload :=
  { orderId := v.orderId.getD genOrderId
    currencyCode := v.currencyCode.getD v.currency
    amount := v.amount.getD 4999
    customerId := v.customerId
    customer := v.customer.getD ⟨some (v.customerEmail.getD "demo@example.com")⟩
    order := v.order.getD
      ⟨some v.countryCode,
       some [⟨"direct-api-item", "Direct API Test Item", v.amount.getD 4999, 1⟩]⟩
    paymentMethod := v.paymentMethod
    paymentType := v.paymentType
    metadata := v.metadata }

/-- The direct-format branch of src/api/create-client-session.js lines
40-76: identical to the server.js branch except that its spread list has no
`paymentType` entry, so a caller-supplied `paymentType` is dropped. -/
def directOrderDataApi (v : SessionValue) (genOrderId : String) : DirectOrderPayload :=
  { orderId := v.orderId.getD genOrderId
    currencyCode := v.currencyCode.getD v.currency
    amount := v.amount.getD 4999
    customerId := v.customerId
    customer := v.customer.getD ⟨some (v.customerEmail.getD "demo@example.com")⟩
    order := v.order.getD
      ⟨some v.countryCode,
       some [⟨"direct-api-item", "Direct API Test Item", v.amount.getD 4999, 1⟩]⟩
    paymentMethod := v.paymentMethod
    paymentType := none
    metadata := v.metadata }

inductive OrderDataResult
  | direct (p : DirectOrderPayload)
  | internal (p : InternalOrderPayload)
deriving DecidableEq, Repr

/-- Shape detection plus normalization, as performed by the server.js
handler. -/
def createSessionOrderData (v : SessionValue) (genOrderId : String) : OrderDataResult :=
  if isDirectFormat v then .direct (directOrderDataServer v genOrderId)
  else .internal (internalOrderData v genOrderId)

/-- The simplified-shape request `{amount: 1000, items: []}` after Joi
validation (defaults applied). -/
def sessionWithEmptyItems : SessionValue :=
  { userId := none, cartId := none, amount := some 1000, currency := "GBP",
    customerEmail := none, customerId := none, orderId := none, currencyCode := none,
    countryCode := "GB", applePayMerchantName := none, applePayRecurring := false,
    applePayDeferred := false, applePayAutoReload := false, items := some [],
    order := none, customer := none, paymentMethod := none, paymentType := none,
    metadata := none, firstPaymentReason := none }

/-- Claim C5 counterexample: the simplified-shape request with an explicitly
empty `items` array passes validation (`Joi.array().items(...)` has no
minimum length), yet an empty array is truthy in JS, so the normalizer maps
it element-wise and produces an empty `order.lineItems`. -/
theorem internalOrderData_C5_counterexample :
    validSessionValue sessionWithEmptyItems = true ∧
    isDirectFormat sessionWithEmptyItems = false ∧
    (internalOrderData sessionWithEmptyItems "ORD-1700000000000-AB12CD34").order.lineItems = [] := by
  decide

/-- Claim C5 amended: for a validated simplified-shape request,
`order.lineItems` is non-empty whenever `items` is absent or non-empty (an
explicitly empty caller-supplied array is accepted by validation and maps to
an empty list); when `items` is absent, it is exactly one synthesized line
item whose amount is the payload amount (the requested total, default 4999)
and whose quantity is 1. -/
theorem internalOrderData_C5_amended (v : SessionValue) (gen : String)
    (hvalid : validSessionValue v = true)
    (hshape : isDirectFormat v = false)
    (hitems : v.items = none ∨ ∃ l, v.items = some l ∧ l ≠ []) :
    createSessionOrderData v gen = .internal (internalOrderData v gen) ∧
    (internalOrderData v gen).order.lineItems ≠ [] ∧
    (v.items = none →
      (internalOrderData v gen).order.lineItems =
        [⟨"hoodie-sku-1", "Premium Primer Hoodie", v.amount.getD 4999, 1⟩] ∧
      (internalOrderData v gen).amount = v.amount.getD 4999) := by
  refine ⟨?_, ?_, ?_⟩
  · rw [createSessionOrderData, if_neg (by simp [hshape])]
  · rcases hitems with h | ⟨l, hl, hne⟩
    · simp [internalOrderData, internalLineItems, h]
    · simp [internalOrderData, internalLineItems, hl, hne]
  · intro h
    exact ⟨by simp [internalOrderData, internalLineItems, h], by simp [internalOrderData]⟩

/-- The simplified-shape request `{amount: 1000}` (no items) after Joi
validation. -/
def sessionSimpleNoItems : SessionValue :=
  { userId := none, cartId := none, amount := some 1000, currency := "GBP",
    customerEmail := none, customerId := none, orderId := none, currencyCode := none,
    countryCode := "GB", applePayMerchantName := none, applePayRecurring := false,
    applePayDeferred := false, applePayAutoReload := false, items := none,
    order := none, customer := none, paymentMethod := none, paymentType := none,
    metadata := none, firstPaymentReason := none }

theorem internalOrderData_C5_amended_witness :
    (internalOrderData sessionSimpleNoItems "ORD-1700000000000-AB12CD34").order.lineItems =
      [⟨"hoodie-sku-1", "Premium Primer Hoodie", 1000, 1⟩] ∧
    (internalOrderData sessionSimpleNoItems "ORD-1700000000000-AB12CD34").amount = 1000 :=
  (internalOrderData_C5_amended sessionSimpleNoItems "ORD-1700000000000-AB12CD34"
    (by decide) (by decide) (Or.inl rfl)).2.2 rfl

/-- A processor-native-shape request carrying an explicit `paymentType`. -/
def directSessionWithPaymentType : SessionValue :=
  { userId := none, cartId := none, amount := some 2500, currency := "GBP",
    customerEmail := none, customerId := none, orderId := some "ORD-CALLER-1",
    currencyCode := some "USD", countryCode := "GB", applePayMerchantName := none,
    applePayRecurring := false, applePayDeferred := false, applePayAutoReload := false,
    items := none, order := none, customer := none, paymentMethod := none,
    paymentType := some "ECOMMERCE", metadata := none, firstPaymentReason := none }

/-- Claim C6 counterexample: the serverless variant
(src/api/create-client-session.js lines 40-76) omits `paymentType` from its
spread list, so a validated processor-native request that supplies
`paymentType` does not see it appear in the canonical payload built by that
cited variant. -/
theorem directOrderDataApi_C6_counterexample :
    validSessionValue directSessionWithPaymentType = true ∧
    isDirectFormat directSessionWithPaymentType = true ∧
    directSessionWithPaymentType.paymentType = some "ECOMMERCE" ∧
    (directOrderDataApi directSessionWithPaymentType "ORD-GEN").paymentType = none := by
  decide

/-- Claim C6 amended: in the processor-native branch, caller-supplied
`orderId`, `currencyCode`, `customer`, `order`, `paymentMethod` and
`metadata` appear unchanged in the canonical payload in both deployment
variants, and an absent `customer` or `order` is synthesized with the
documented defaults (placeholder or caller email; default country code plus
one default line item over the amount); `paymentType`, however, is passed
through only by the server.js variant — the serverless variant drops it. -/
theorem directOrderData_C6_amended (v : SessionValue) (gen : String)
    (hvalid : validSessionValue v = true)
    (hshape : isDirectFormat v = true) :
    (∀ x, v.orderId = some x →
      (directOrderDataServer v gen).orderId = x ∧ (directOrderDataApi v gen).orderId = x) ∧
    (∀ x, v.currencyCode = some x →
      (directOrderDataServer v gen).currencyCode = x ∧
      (directOrderDataApi v gen).currencyCode = x) ∧
    (∀ x, v.customer = some x →
      (directOrderDataServer v gen).customer = x ∧ (directOrderDataApi v gen).customer = x) ∧
    (∀ x, v.order = some x →
      (directOrderDataServer v gen).order = x ∧ (directOrderDataApi v gen).order = x) ∧
    (∀ x, v.paymentMethod = some x →
      (directOrderDataServer v gen).paymentMethod = some x ∧
      (directOrderDataApi v gen).paymentMethod = some x) ∧
    (∀ x, v.metadata = some x →
      (directOrderDataServer v gen).metadata = some x ∧
      (directOrderDataApi v gen).metadata = some x) ∧
    (∀ x, v.paymentType = some x →
      (directOrderDataServer v gen).paymentType = some x ∧
      (directOrderDataApi v gen).paymentType = none) ∧
    (v.customer = none →
      (directOrderDataServer v gen).customer = ⟨some (v.customerEmail.getD "demo@example.com")⟩ ∧
      (directOrderDataApi v gen).customer = ⟨some (v.customerEmail.getD "demo@example.com")⟩) ∧
    (v.order = none →
      (directOrderDataServer v gen).order =
        ⟨some v.countryCode,
         some [⟨"direct-api-item", "Direct API Test Item", v.amount.getD 4999, 1⟩]⟩ ∧
      (directOrderDataApi v gen).order =
        ⟨some v.countryCode,
         some [⟨"direct-api-item", "Direct API Test Item", v.amount.getD 4999, 1⟩]⟩) := by
  refine ⟨?_, ?_, ?_, ?_, ?_, ?_, ?_, ?_, ?_⟩ <;>
    first
    | (intro x hx; exact ⟨by simp [directOrderDataServer, hx], by simp [directOrderDataApi, hx]⟩)
    | (intro hx; exact ⟨by simp [directOrderDataServer, hx], by simp [directOrderDataApi, hx]⟩)

theorem directOrderData_C6_amended_witness :
    (directOrderDataServer directSessionWithPaymentType "ORD-GEN").paymentType =
      some "ECOMMERCE" ∧
    (directOrderDataApi directSessionWithPaymentType "ORD-GEN").paymentType = none :=
  (directOrderData_C6_amended directSessionWithPaymentType "ORD-GEN"
    (by decide) (by decide)).2.2.2.2.2.2.1 "ECOMMERCE" rfl

/-- Claim C7: in the simplified-shape normalization, when two or more of the
Apple Pay flags are set, the `APPLE_PAY` options carry exactly one flag
effect on `merchantCapabilities` and `paymentSummaryItems`, namely that of
the last set flag in the fixed check order recurring, then deferred, then
auto-reload (a later conditional object spread overwrites both keys of an
earlier one). -/
theorem internalOrderData_C7 (v : SessionValue) (gen : String)
    (hvalid : validSessionValue v = true)
    (hshape : isDirectFormat v = false)
    (htwo : 2 ≤ (cond v.applePayRecurring 1 0) + (cond v.applePayDeferred 1 0) +
      (cond v.applePayAutoReload 1 0)) :
    ((internalOrderData v gen).paymentMethod.APPLE_PAY.merchantCapabilities,
      (internalOrderData v gen).paymentMethod.APPLE_PAY.paymentSummaryItems) =
      (if v.applePayAutoReload then
        (some ["supports3DS", "supportsEMV", "supportsCredit", "supportsDebit"],
         some [⟨"Auto-reload Setup", (internalOrderData v gen).amount, "final"⟩])
      else if v.applePayDeferred then
        (some ["supports3DS", "supportsEMV", "supportsCredit"],
         some [⟨"Buy Now, Pay Later", (internalOrderData v gen).amount, "pending"⟩])
      else
        (some ["supports3DS", "supportsEMV", "supportsCredit", "supportsDebit"],
         some [⟨"Recurring Payment Setup", (internalOrderData v gen).amount, "final"⟩])) := by
  cases hm : v.applePayMerchantName <;>
    cases hr : v.applePayRecurring <;>
    cases hd : v.applePayDeferred <;>
    cases ha : v.applePayAutoReload <;>
    rw [hr, hd, ha] at htwo <;>
    simp_all [internalOrderData, applePayOptions]

/-- The simplified-shape request with both the recurring and the deferred
Apple Pay flags set. -/
def sessionTwoApplePayFlags : SessionValue :=
  { userId := none, cartId := none, amount := some 1500, currency := "GBP",
    customerEmail := none, customerId := none, orderId := none, currencyCode := none,
    countryCode := "GB", applePayMerchantName := none, applePayRecurring := true,
    applePayDeferred := true, applePayAutoReload := false, items := none,
    order := none, customer := none, paymentMethod := none, paymentType := none,
    metadata := none, firstPaymentReason := none }

theorem internalOrderData_C7_witness :
    ((internalOrderData sessionTwoApplePayFlags "ORD-1").paymentMethod.APPLE_PAY.merchantCapabilities,
      (internalOrderData sessionTwoApplePayFlags "ORD-1").paymentMethod.APPLE_PAY.paymentSummaryItems) =
      (some ["supports3DS", "supportsEMV", "supportsCredit"],
       some [⟨"Buy Now, Pay Later", 1500, "pending"⟩]) := by
  rw [internalOrderData_C7 sessionTwoApplePayFlags "ORD-1" (by decide) (by decide) (by decide)]
  decide

/-! ## Decimal rendering of JS numbers in template literals

`${response.status}` and `${Date.now()}` interpolate a number in decimal.
The rendering is defined with structural fuel recursion (fuel `n` is enough
for every `n`) so that concrete instances evaluate inside the kernel. -/

def digitChar (d : Nat) : Char := Char.ofNat ('0'.toNat + d)

def natDecimalCore (fuel n : Nat) (acc : List Char) : List Char :=
  match fuel with
  | 0 => acc
  | fuel + 1 => if n = 0 then acc else natDecimalCore fuel (n / 10) (digitChar (n % 10) :: acc)

def natDecimal (n : Nat) : List Char :=
  if n = 0 then ['0'] else natDecimalCore n n []

def natToString (n : Nat) : String := ⟨natDecimal n⟩

/-- Decimal evaluation, the left inverse used to prove that the rendering is
injective. -/
def decVal (l : List Char) : Nat :=
  l.foldl (fun a c => 10 * a + (c.toNat - '0'.toNat)) 0

theorem digitChar_sub : ∀ d, d < 10 → (digitChar d).toNat - '0'.toNat = d := by
  decide

theorem natDecimalCore_zero (fuel : Nat) (acc : List Char) :
    natDecimalCore fuel 0 acc = acc := by
  cases fuel with
  | zero => rfl
  | succ fuel => rw [natDecimalCore, if_pos rfl]

theorem natDecimalCore_append (fuel : Nat) :
    ∀ n acc, natDecimalCore fuel n acc = natDecimalCore fuel n [] ++ acc := by
  induction fuel with
  | zero => intro n acc; rfl
  | succ fuel ih =>
    intro n acc
    rw [natDecimalCore, natDecimalCore]
    by_cases h : n = 0
    · rw [if_pos h, if_pos h]
      rfl
    · rw [if_neg h, if_neg h, ih (n / 10) (digitChar (n % 10) :: acc),
        ih (n / 10) [digitChar (n % 10)]]
      simp

theorem decVal_append_digit (l : List Char) (c : Char) :
    decVal (l ++ [c]) = 10 * decVal l + (c.toNat - '0'.toNat) := by
  rw [decVal, List.foldl_append, List.foldl_cons, List.foldl_nil]
  rfl

theorem decVal_natDecimalCore (fuel : Nat) :
    ∀ n, 0 < n → n < 10 ^ fuel → decVal (natDecimalCore fuel n []) = n := by
  induction fuel with
  | zero =>
    intro n hn hlt
    simp at hlt
    omega
  | succ fuel ih =>
    intro n hn hlt
    rw [natDecimalCore, if_neg (by omega),
      natDecimalCore_append fuel (n / 10) [digitChar (n % 10)], decVal_append_digit,
      digitChar_sub _ (Nat.mod_lt _ (by norm_num))]
    by_cases h0 : n / 10 = 0
    · rw [h0, natDecimalCore_zero]
      have : decVal [] = 0 := rfl
      rw [this]
      omega
    · have hdiv : n / 10 < 10 ^ fuel := by
        have h10 : (10 : Nat) ^ (fuel + 1) = 10 ^ fuel * 10 := pow_succ 10 fuel
        rw [Nat.div_lt_iff_lt_mul (by norm_num)]
        omega
      rw [ih (n / 10) (Nat.pos_of_ne_zero h0) hdiv]
      omega

theorem decVal_natDecimal (n : Nat) : decVal (natDecimal n) = n := by
  rw [natDecimal]
  by_cases h : n = 0
  · rw [if_pos h, h]
    decide
  · rw [if_neg h]
    exact decVal_natDecimalCore n n (Nat.pos_of_ne_zero h) (Nat.lt_pow_self (by norm_num) n)

theorem natDecimal_injective (m n : Nat) (h : natDecimal m = natDecimal n) : m = n := by
  have := congrArg decVal h
  rwa [decVal_natDecimal, decVal_natDecimal] at this

theorem natDecimalCore_mem (P : Char → Prop) (hP : ∀ d, d < 10 → P (digitChar d)) :
    ∀ fuel n acc, (∀ c ∈ acc, P c) → ∀ c ∈ natDecimalCore fuel n acc, P c := by
  intro fuel
  induction fuel with
  | zero => intro n acc hacc c hc; exact hacc c hc
  | succ fuel ih =>
    intro n acc hacc c hc
    rw [natDecimalCore] at hc
    by_cases h : n = 0
    · rw [if_pos h] at hc
      exact hacc c hc
    · rw [if_neg h] at hc
      refine ih (n / 10) _ ?_ c hc
      intro x hx
      rcases List.mem_cons.mp hx with h' | h'
      · subst h'
        exact hP _ (Nat.mod_lt _ (by norm_num))
      · exact hacc x h'

theorem natDecimal_no_dash (n : Nat) : ∀ c ∈ natDecimal n, c ≠ '-' := by
  intro c hc
  rw [natDecimal] at hc
  by_cases h : n = 0
  · rw [if_pos h] at hc
    simp at hc
    subst hc
    decide
  · rw [if_neg h] at hc
    exact natDecimalCore_mem (fun c => c ≠ '-') (by decide) n n [] (by simp) c hc

theorem append_dash_inj : ∀ (l₁ l₂ r₁ r₂ : List Char),
    (∀ c ∈ l₁, c ≠ '-') → (∀ c ∈ l₂, c ≠ '-') →
    l₁ ++ '-' :: r₁ = l₂ ++ '-' :: r₂ → l₁ = l₂ ∧ r₁ = r₂ := by
  intro l₁
  induction l₁ with
  | nil =>
    intro l₂ r₁ r₂ h₁ h₂ h
    cases l₂ with
    | nil => simpa using h
    | cons b xs =>
      simp only [List.nil_append, List.cons_append, List.cons.injEq] at h
      exact absurd h.1.symm (h₂ b (List.mem_cons_self b xs))
  | cons a xs ih =>
    intro l₂ r₁ r₂ h₁ h₂ h
    cases l₂ with
    | nil =>
      simp only [List.nil_append, List.cons_append, List.cons.injEq] at h
      exact absurd h.1 (h₁ a (List.mem_cons_self a xs))
    | cons b ys =>
      simp only [List.cons_append, List.cons.injEq] at h
      obtain ⟨hab, hrest⟩ := h
      obtain ⟨hxy, hr⟩ := ih ys r₁ r₂ (fun c hc => h₁ c (List.mem_cons_of_mem a hc))
        (fun c hc => h₂ c (List.mem_cons_of_mem b hc)) hrest
      exact ⟨by rw [hab, hxy], hr⟩

/-! ## Outbound API client failure interpretation

Models of the retried units of work wrapping `fetch`.

Session creation (src/server.js lines 226-248 and 1018-1040,
src/api/create-client-session.js lines 156-178):

```
const data = await apiResponse.json();
if (!apiResponse.ok) {
  const error = new Error(data.message || 'Primer API request failed');
  error.status = apiResponse.status;
  error.data = data;
  throw error;
}
return data;
```

Token charge (src/server.js lines 805-828, src/api/charge-payment-method.js
lines 75-98):

```
if (!response.ok) {
  const errorData = await response.json().catch(() => ({}));
  console.error(...);
  throw new Error(`Primer Payments API request failed: ${response.status} ${response.statusText}`);
}
return response.json();
```

The HTTP response is a record of its `ok` flag, numeric status, status text
and body; `body = none` models a body on which `response.json()` rejects.
A JSON body is modelled by its optional `message` field (the only field the
code reads) plus its remaining serialized content. -/

structure JsonBody where
  message : Option String
  rest : String
deriving DecidableEq, Repr

structure HttpResp where
  ok : Bool
  status : Nat
  statusText : String
  body : Option JsonBody
deriving DecidableEq, Repr

/-- The JS `Error` object as thrown by these two wrappers: its message string
and the `status` and `data` properties when — and only when — the throwing
code attached them. -/
structure ApiFailure where
  message : String
  status : Option Nat
  data : Option JsonBody
deriving DecidableEq, Repr

inductive FetchFailure
  | parseFault                 -- response.json() rejected; nothing attached
  | apiError (f : ApiFailure)  -- explicitly thrown Error
deriving DecidableEq, Repr

/-- Session-creation unit of work: the body is parsed before the ok-check, so
an unparsable body raises the parse failure itself; a non-ok status raises an
Error carrying the status and the parsed body. -/
def sessionFetchResult (resp : HttpResp) : Except FetchFailure JsonBody :=
  match resp.body with
  | none => .error .parseFault
  | some data =>
    if resp.ok then .ok data
    else .error (.apiError
      ⟨(data.message.getD "Primer API request failed"), some resp.status, some data⟩)

/-- Charge unit of work: on a non-ok status the body is parsed with an
empty-object default for the console log only, and the thrown Error carries
just a message embedding the status code and status text — no `status` or
`data` property is attached. -/
def chargeFetchResult (resp : HttpResp) : Except FetchFailure JsonBody :=
  if resp.ok then
    match resp.body with
    | some data => .ok data
    | none => .error .parseFault
  else
    .error (.apiError
      ⟨"Primer Payments API request failed: " ++ natToString resp.status ++ " " ++ resp.statusText,
       none, none⟩)

/-- Claim C8 counterexample: a failing charge response with a parsable JSON
body raises a failure that carries neither the parsed error detail nor a
status property (only a message string), and a failing session response with
an unparsable body raises the bare parse failure instead of one carrying the
status and an empty-object detail. -/
theorem fetchResult_C8_counterexample :
    chargeFetchResult ⟨false, 422, "Unprocessable Entity", some ⟨some "boom", "code 1"⟩⟩ =
      Except.error (FetchFailure.apiError
        ⟨"Primer Payments API request failed: 422 Unprocessable Entity", none, none⟩) ∧
    sessionFetchResult ⟨false, 400, "Bad Request", none⟩ =
      Except.error FetchFailure.parseFault := by
  constructor
  · rfl
  · rfl

/-- Claim C8 amended: for session-creation calls the response body is parsed
before the status check — when it parses and the status is not ok, the raised
failure does carry the HTTP status and the parsed detail (with the message
taken from the detail or a fixed fallback), but an unparsable body raises the
parse failure itself, with no status and no empty-object default; for charge
calls the raised failure is a bare Error whose message embeds the status code
and status text, the JSON-with-empty-object-default detail being only
logged, never attached. -/
theorem fetchResult_C8_amended (resp : HttpResp) (hnotok : resp.ok = false) :
    (∀ data, resp.body = some data →
      sessionFetchResult resp = Except.error (FetchFailure.apiError
        ⟨data.message.getD "Primer API request failed", some resp.status, some data⟩)) ∧
    (resp.body = none → sessionFetchResult resp = Except.error FetchFailure.parseFault) ∧
    chargeFetchResult resp = Except.error (FetchFailure.apiError
      ⟨"Primer Payments API request failed: " ++ natToString resp.status ++ " " ++ resp.statusText,
       none, none⟩) := by
  refine ⟨?_, ?_, ?_⟩
  · intro data hb
    rw [sessionFetchResult, hb]
    simp [hnotok]
  · intro hb
    rw [sessionFetchResult, hb]
  · rw [chargeFetchResult, if_neg (by simp [hnotok])]

theorem fetchResult_C8_amended_witness :
    sessionFetchResult ⟨false, 422, "Unprocessable Entity", some ⟨some "boom", "code 1"⟩⟩ =
      Except.error (FetchFailure.apiError ⟨"boom", some 422, some ⟨some "boom", "code 1"⟩⟩) :=
  (fetchResult_C8_amended ⟨false, 422, "Unprocessable Entity", some ⟨some "boom", "code 1"⟩⟩
    rfl).1 ⟨some "boom", "code 1"⟩ rfl

/-! ## Charge idempotency key

Model of the outbound headers of the charge call (src/server.js lines
806-815, src/api/charge-payment-method.js lines 76-85):

```
headers: {
  'Content-Type': 'application/json',
  'X-Api-Key': PRIMER_API_KEY,
  'X-Api-Version': '2.4',
  'X-Idempotency-Key': `charge-${Date.now()}-${Math.random().toString(36).substring(2, 15)}`
}
```

The template literal is evaluated inside the async function handed to
`retryWithBackoff`, so every invocation draws the clock and the PRNG anew;
the draws are modelled as streams indexed by the invocation number. -/

def chargeIdempotencyKey (now : Nat) (rand : List Char) : String :=
  ⟨"charge-".data ++ natDecimal now ++ '-' :: rand⟩

structure ChargeHeaders where
  contentType : String
  xApiKey : String
  xApiVersion : String
  xIdempotencyKey : String
deriving DecidableEq, Repr

def chargeRequestHeaders (apiKey : String) (now : Nat) (rand : List Char) : ChargeHeaders :=
  { contentType := "application/json"
    xApiKey := apiKey
    xApiVersion := "2.4"
    xIdempotencyKey := chargeIdempotencyKey now rand }

/-- The headers built by invocation `i` of the retried unit of work. -/
def chargeAttemptHeaders (apiKey : String) (now : Nat → Nat) (rand : Nat → List Char)
    (i : Nat) : ChargeHeaders :=
  chargeRequestHeaders apiKey (now i) (rand i)

/-- The retried unit of work of the charge handler: build this invocation's
headers, send the fixed payment request through the transport, and interpret
the response. -/
def chargeAttempt (apiKey body : String) (now : Nat → Nat) (rand : Nat → List Char)
    (transport : ChargeHeaders → String → HttpResp) (i : Nat) :
    Except FetchFailure JsonBody :=
  chargeFetchResult (transport (chargeAttemptHeaders apiKey now rand i) body)

/-- `retryWithBackoff(async () => {...}, 3)` — the charge call with the
explicit attempt limit 3 and the default base delay 1000. -/
def chargeCall (apiKey body : String) (now : Nat → Nat) (rand : Nat → List Char)
    (transport : ChargeHeaders → String → HttpResp) : RetryTrace FetchFailure JsonBody :=
  retryWithBackoff (chargeAttempt apiKey body now rand transport) 3 1000

theorem chargeIdempotencyKey_inj (t t' : Nat) (r r' : List Char)
    (h : chargeIdempotencyKey t r = chargeIdempotencyKey t' r') : t = t' ∧ r = r' := by
  have hd : "charge-".data ++ (natDecimal t ++ '-' :: r) =
      "charge-".data ++ (natDecimal t' ++ '-' :: r') := by
    have hc := congrArg String.data h
    simpa [chargeIdempotencyKey] using hc
  have h2 := List.append_cancel_left hd
  obtain ⟨hn, hr⟩ := append_dash_inj _ _ _ _ (natDecimal_no_dash t) (natDecimal_no_dash t') h2
  exact ⟨natDecimal_injective _ _ hn, hr⟩

/-- Claim C9: the `X-Idempotency-Key` of invocation `i` of the retried charge
work is built from that invocation's clock value and random characters (the
template literal is inside the retried function), and two invocations whose
clock or random draw differ send distinct keys — the key is not held fixed
across retries. -/
theorem chargeIdempotencyKey_C9 (apiKey : String) (now : Nat → Nat) (rand : Nat → List Char)
    (i j : Nat) (hfresh : now i ≠ now j ∨ rand i ≠ rand j) :
    (chargeAttemptHeaders apiKey now rand i).xIdempotencyKey =
      chargeIdempotencyKey (now i) (rand i) ∧
    (chargeAttemptHeaders apiKey now rand i).xIdempotencyKey ≠
      (chargeAttemptHeaders apiKey now rand j).xIdempotencyKey := by
  refine ⟨rfl, ?_⟩
  intro h
  have hinj := chargeIdempotencyKey_inj (now i) (now j) (rand i) (rand j) h
  rcases hfresh with hf | hf
  · exact hf hinj.1
  · exact hf hinj.2

theorem chargeIdempotencyKey_C9_witness :
    (chargeAttemptHeaders "sk_test_key" (fun i => i) (fun _ => ['x']) 0).xIdempotencyKey =
      chargeIdempotencyKey 0 ['x'] ∧
    (chargeAttemptHeaders "sk_test_key" (fun i => i) (fun _ => ['x']) 0).xIdempotencyKey ≠
      (chargeAttemptHeaders "sk_test_key" (fun i => i) (fun _ => ['x']) 1).xIdempotencyKey :=
  chargeIdempotencyKey_C9 "sk_test_key" (fun i => i) (fun _ => ['x']) 0 1 (Or.inl (by decide))
